import Mathlib

/-!
Shallow embedding of the client-side behavior layer of the
`Portfolio_2026` single-page portfolio site (`src/script.js` and the
unnamed companion script `src/unnamed/part_000`).

Numbers handled by the browser are modelled exactly: scroll offsets and
random draws as rationals (`ℚ`), the particle trigonometry as reals
(`ℝ`), and the one place where JavaScript division by zero matters uses
an explicit `JSNum` type with `NaN` and signed infinities.  DOM class
lists are modelled as `Bool` fields, `localStorage` as an association
list, and each event handler as a function from its inputs (scroll
offset, random draw, field values) and the relevant state to the new
state.
-/

/-! ## localStorage -/

/-- Browser `localStorage`, as an association list from keys to values. -/
abbrev Storage := List (String × String)

/-- `localStorage.getItem(k)`: the value stored at `k`, if any. -/
def getItem (s : Storage) (k : String) : Option String :=
  (s.find? (fun p => p.1 == k)).map (fun p => p.2)

/-- `localStorage.setItem(k, v)`: store `v` at key `k`, shadowing any
previous binding. -/
def setItem (s : Storage) (k v : String) : Storage :=
  (k, v) :: s.filter (fun p => p.1 != k)

/-! ## ThemeManager (src/script.js lines 73-120) -/

/-- The state touched by `ThemeManager`: the in-memory `STATE.theme`
string, whether `document.body` carries the `dark-mode` class, and the
browser storage. -/
structure ThemeState where
  theme : String
  darkModeClass : Bool
  storage : Storage
  deriving Repr, DecidableEq

/-- `ThemeManager.setTheme(theme)` (script.js 84-95): sets
`STATE.theme`, toggles the body class `dark-mode` on exactly when
`theme === 'dark'`, and writes `localStorage.setItem('theme', theme)`.
(The meta `theme-color` update touches no modelled state.) -/
def ThemeManager.setTheme (st : ThemeState) (theme : String) : ThemeState :=
  { theme := theme
    darkModeClass := theme == "dark"
    storage := setItem st.storage "theme" theme }

/-- `ThemeManager.toggleTheme()` (script.js 97-105): computes
`STATE.theme === 'light' ? 'dark' : 'light'` and calls `setTheme`. -/
def ThemeManager.toggleTheme (st : ThemeState) : ThemeState :=
  ThemeManager.setTheme st (if st.theme == "light" then "dark" else "light")

/-! ## NavigationManager (src/script.js lines 239-265) -/

/-- The navbar state: the `scrolled` and `hidden` classes on the navbar
element, and the last recorded `STATE.scrollPosition`. -/
structure NavState where
  scrolled : Bool
  hidden : Bool
  prevScroll : ℚ
  deriving Repr, DecidableEq

/-- `NavigationManager.updateNavbar()` (script.js 250-265) at current
scroll offset `cur` (`window.pageYOffset`): above 100 the navbar gains
`scrolled`, and gains `hidden` exactly when scrolling down
(`cur > STATE.scrollPosition`) past 200, otherwise loses it; at 100 or
below both classes are removed.  Finally `STATE.scrollPosition := cur`. -/
def NavigationManager.updateNavbar (cur : ℚ) (st : NavState) : NavState :=
  if 100 < cur then
    { scrolled := true
      hidden := decide (st.prevScroll < cur ∧ 200 < cur)
      prevScroll := cur }
  else
    { scrolled := false, hidden := false, prevScroll := cur }

/-! ## JavaScript numbers for the progress bar (src/script.js 239-248) -/

/-- A JavaScript number: `NaN`, a signed infinity, or a finite value
(modelled exactly as a rational). -/
inductive JSNum where
  | nan : JSNum
  | inf : Bool → JSNum
  | fin : ℚ → JSNum
  deriving Repr, DecidableEq

/-- JavaScript division, including the IEEE-754 special cases
`0/0 = NaN` and `x/0 = ±Infinity` for finite nonzero `x`. -/
def jsDiv : JSNum → JSNum → JSNum
  | JSNum.fin a, JSNum.fin b =>
      if b = 0 then (if a = 0 then JSNum.nan else JSNum.inf (decide (0 < a)))
      else JSNum.fin (a / b)
  | JSNum.nan, _ => JSNum.nan
  | _, JSNum.nan => JSNum.nan
  | JSNum.inf _, JSNum.inf _ => JSNum.nan
  | JSNum.inf s, JSNum.fin b => JSNum.inf (s == decide (0 ≤ b))
  | JSNum.fin _, JSNum.inf _ => JSNum.fin 0

/-- JavaScript multiplication on the cases reachable here:
`NaN * x = NaN`, `±Infinity * c` keeps the product sign (and is `NaN`
against zero), finite times finite is exact. -/
def jsMul : JSNum → JSNum → JSNum
  | JSNum.fin a, JSNum.fin b => JSNum.fin (a * b)
  | JSNum.nan, _ => JSNum.nan
  | _, JSNum.nan => JSNum.nan
  | JSNum.inf s, JSNum.inf t => JSNum.inf (s == t)
  | JSNum.inf s, JSNum.fin b =>
      if b = 0 then JSNum.nan else JSNum.inf (s == decide (0 < b))
  | JSNum.fin a, JSNum.inf t =>
      if a = 0 then JSNum.nan else JSNum.inf (t == decide (0 < a))

/-- A JavaScript number is finite when it is neither `NaN` nor an
infinity. -/
def JSNum.isFinite : JSNum → Bool
  | JSNum.fin _ => true
  | _ => false

/-- The percentage computed by `NavigationManager.updateProgressBar()`
(script.js 239-248): `(winScroll / height) * 100`, with
`winScroll = document.body.scrollTop || document.documentElement.scrollTop`
and `height = scrollHeight - clientHeight`, both finite inputs. -/
def NavigationManager.progressScrolled (winScroll height : ℚ) : JSNum :=
  jsMul (jsDiv (JSNum.fin winScroll) (JSNum.fin height)) (JSNum.fin 100)

/-! ## AnalyticsManager (src/script.js lines 926-1008) -/

/-- An analytics event as built by `logEvent` (script.js 992-997):
`{ id, name, data, timestamp }`, with the payload kept as key/value
strings. -/
structure AnalyticsEvent where
  id : String
  name : String
  data : List (String × String)
  timestamp : String
  deriving Repr, DecidableEq

/-- `AnalyticsManager.logEvent` (script.js 991-1008): push the event,
then if more than 100 events are held keep `this.events.slice(-100)`,
the last 100. -/
def AnalyticsManager.logEvent (ev : AnalyticsEvent)
    (events : List AnalyticsEvent) : List AnalyticsEvent :=
  let events' := events ++ [ev]
  if 100 < events'.length then events'.drop (events'.length - 100) else events'

/-- The event list reached after logging the events of `l` in order,
starting from the empty list `this.events = []` of the constructor
(script.js 928). -/
def AnalyticsManager.logEvents (l : List AnalyticsEvent) : List AnalyticsEvent :=
  l.foldl (fun acc e => AnalyticsManager.logEvent e acc) []

/-! ## ContactFormManager (src/script.js lines 637-682) -/

/-- `ContactFormManager.submitForm` (script.js 670-682), as a function
of the `Math.random()` draw `r`: after the simulated 1500ms delay the
promise resolves with `{success: true}` when `r > 0.1` and rejects with
`Error('Network error')` otherwise. -/
def ContactFormManager.submitForm (r : ℚ) : Except String Unit :=
  if 1/10 < r then Except.ok () else Except.error "Network error"

/-- The state touched by `ContactFormManager.handleSubmit`: the
`STATE.formSubmitting` flag, the form field values, the last
notification shown (`message`, `type`), and whether the success message
is displayed. -/
structure ContactState where
  submitting : Bool
  fields : List (String × String)
  notification : Option (String × String)
  successShown : Bool
  deriving Repr, DecidableEq

/-- `ContactFormManager.handleSubmit` (script.js 637-668), as a
function of the `Math.random()` draw `r` consumed by `submitForm` and
of the `validateForm()` outcome `valid`.  A re-entrant call returns
immediately; an invalid form only shows an error notification; a valid
form awaits `submitForm`: on success the form is reset (all field
values cleared) and the success message shown, on rejection the error
notification is shown and the fields are left as they were.  The
`finally` block restores `STATE.formSubmitting := false`. -/
def ContactFormManager.handleSubmit (r : ℚ) (valid : Bool)
    (st : ContactState) : ContactState :=
  if st.submitting then st
  else if !valid then
    { st with
      notification := some ("Veuillez corriger les erreurs dans le formulaire.", "error") }
  else
    match ContactFormManager.submitForm r with
    | Except.ok _ =>
        { st with
          fields := st.fields.map (fun p => (p.1, ""))
          successShown := true
          submitting := false }
    | Except.error _ =>
        { st with
          notification := some ("Une erreur est survenue. Veuillez réessayer.", "error")
          submitting := false }

/-! ## NewsletterManager (src/script.js lines 1151-1188) -/

/-- JavaScript regex `\\s`: space, tab, line terminators, vertical tab,
form feed, and the Unicode space separators. -/
def jsWhitespace (c : Char) : Bool :=
  c = ' ' || c = '\t' || c = '\n' || c = '\r' || c = '\x0b' || c = '\x0c' ||
  c = '\u00A0' || c = '\u1680' || ('\u2000' ≤ c && c ≤ '\u200A') ||
  c = '\u2028' || c = '\u2029' || c = '\u202F' || c = '\u205F' ||
  c = '\u3000' || c = '\uFEFF'

/-- The character class `[^\s@]` of the newsletter email regex: any
character that is neither an `@` sign nor JavaScript whitespace. -/
def emailChunkChar (c : Char) : Bool :=
  !(c = '@' || jsWhitespace c)

/-- `NewsletterManager.validateEmail` (script.js 1189-1191): the test
of `/^[^\s@]+@[^\s@]+\.[^\s@]+$/`.  Because `[^\s@]` excludes `@`, the
`@` the regex consumes is the first `@` of the string; the remainder
must consist of non-space non-`@` characters and contain a dot that is
neither its first nor its last character. -/
def NewsletterManager.validateEmail (s : String) : Bool :=
  let cs := s.data
  match cs.findIdx? (fun c => c = '@') with
  | none => false
  | some i =>
    let a := cs.take i
    let rest := cs.drop (i + 1)
    !a.isEmpty && a.all emailChunkChar &&
    !rest.isEmpty && rest.all emailChunkChar &&
    (rest.drop 1).dropLast.contains '.'

/-- The newsletter "Simulation d'envoi" (script.js 1177):
`await new Promise(resolve => setTimeout(resolve, 1000))`.  The promise
is resolved unconditionally after the delay — no random draw is
consulted — so as a function of the ambient `Math.random()` draw `r`
the simulated send always succeeds. -/
def NewsletterManager.simulateSend (_r : ℚ) : Except String Unit :=
  Except.ok ()

/-- The state touched by `NewsletterManager.handleSubmit`: the email
input value, the submit button's disabled flag, and the last message
shown (`message`, `type`). -/
structure NewsState where
  email : String
  buttonDisabled : Bool
  message : Option (String × String)
  deriving Repr, DecidableEq

/-- `NewsletterManager.handleSubmit` (script.js 1162-1188), as a
function of the ambient random draw `r`: an invalid email shows an
error message; otherwise the simulated send is awaited, the success
message shown and the form reset, with the `catch` branch showing the
error message if the awaited promise rejects; `finally` re-enables the
button. -/
def NewsletterManager.handleSubmit (r : ℚ) (st : NewsState) : NewsState :=
  if !(NewsletterManager.validateEmail st.email) then
    { st with message := some ("Veuillez entrer un email valide", "error") }
  else
    match NewsletterManager.simulateSend r with
    | Except.ok _ =>
        { st with
          message := some ("Merci pour votre inscription !", "success")
          email := ""
          buttonDisabled := false }
    | Except.error _ =>
        { st with
          message := some ("Une erreur est survenue", "error")
          buttonDisabled := false }

/-! ## Scroll reveal (src/script.js lines 55-61, 292-329) -/

/-- `Utils.isInViewport(element, offset)` (script.js 55-61) for an
element whose bounding rect spans `top..bottom`, with `viewH` the
effective viewport height (`window.innerHeight`, falling back to
`document.documentElement.clientHeight`):
`rect.top <= viewH * (1 - offset) && rect.bottom >= 0`. -/
def Utils.isInViewport (top bottom viewH offset : ℚ) : Bool :=
  decide (top ≤ viewH * (1 - offset)) && decide (0 ≤ bottom)

/-- The per-element state of the reveal machinery: the element's
current bounding rect, whether it carries the `visible` class added by
`animateOnScroll`, and whether it carries the `animate__animated` class
added by the Intersection Observer callback. -/
structure RevealElement where
  top : ℚ
  bottom : ℚ
  visibleClass : Bool
  animateClass : Bool
  deriving Repr, DecidableEq

/-- One firing of `animateOnScroll` (script.js 319-325) on a
`.scroll-animate` element: when `Utils.isInViewport(el, 0.2)` holds the
`visible` class is added; the handler never removes it. -/
def AnimationManager.animateOnScrollStep (viewH : ℚ) (el : RevealElement) :
    RevealElement :=
  if Utils.isInViewport el.top el.bottom viewH (2/10) then
    { el with visibleClass := true }
  else el

/-- One firing of the `IntersectionObserver` callback of
`initIntersectionObserver` (script.js 292-306) on an observed
`[data-animate]` element: an intersecting entry gets
`animateElement`, which adds the `animate__animated` class (script.js
308-316); the callback never touches the `visible` class. -/
def AnimationManager.observerStep (isIntersecting : Bool) (el : RevealElement) :
    RevealElement :=
  if isIntersecting then { el with animateClass := true } else el

/-- The `visible` flag of one element after a sequence of scroll events,
each supplying the element's rect and viewport height at that instant. -/
def AnimationManager.runReveal (steps : List (ℚ × ℚ × ℚ)) (el : RevealElement) :
    RevealElement :=
  steps.foldl
    (fun e s => AnimationManager.animateOnScrollStep s.2.2 { e with top := s.1, bottom := s.2.1 })
    el

/-! ## Utils.formatPhone (src/script.js lines 63-65) -/

/-- Whether a run of ten digit characters starts at the head of `cs`:
the anchor test of the regex
`/(\d{2})(\d{2})(\d{2})(\d{2})(\d{2})/` at one candidate position
(`\d` is the ASCII digit class). -/
def tenDigitsAt (cs : List Char) : Bool :=
  decide (10 ≤ cs.length) && (cs.take 10).all Char.isDigit

/-- The replacement `'$1 $2 $3 $4 $5'` applied at a match position:
the five two-digit groups joined by single spaces, followed by the
rest of the string. -/
def groupTen (cs : List Char) : List Char :=
  cs.take 2 ++ ' ' :: ((cs.drop 2).take 2) ++ ' ' :: ((cs.drop 4).take 2) ++
    ' ' :: ((cs.drop 6).take 2) ++ ' ' :: ((cs.drop 8).take 2) ++ cs.drop 10

/-- `String.prototype.replace` with the non-global regex above: the
leftmost position where ten consecutive digits start is rewritten by
`groupTen`; with no match the string is returned unchanged. -/
def replaceFirstTen : List Char → List Char
  | [] => []
  | c :: cs =>
      if tenDigitsAt (c :: cs) then groupTen (c :: cs)
      else c :: replaceFirstTen cs

/-- `Utils.formatPhone(phone)` (script.js 63-65):
`phone.replace(/(\d{2})(\d{2})(\d{2})(\d{2})(\d{2})/, '$1 $2 $3 $4 $5')`. -/
def Utils.formatPhone (s : String) : String :=
  String.mk (replaceFirstTen s.data)

/-! ## ParticlesBackground (src/unnamed/part_000 lines 1258-1348) -/

/-- A canvas particle: position and velocity (size, color and opacity
play no role in the motion). -/
structure Particle where
  x : ℝ
  y : ℝ
  vx : ℝ
  vy : ℝ

/-- `Math.atan2(y, x)`: the argument of the complex number `x + y*i`,
in `(-π, π]`, with `atan2(0, 0) = 0`. -/
noncomputable def jsAtan2 (y x : ℝ) : ℝ :=
  Complex.arg { re := x, im := y }

/-- `this.mouse.radius` (part_000 line 1266). -/
def ParticlesBackground.mouseRadius : ℝ := 100

/-- The particle x position after `p.x += p.vx` (part_000 line 1322). -/
noncomputable def ParticlesBackground.movedX (p : Particle) : ℝ := p.x + p.vx

/-- The particle y position after `p.y += p.vy` (part_000 line 1323). -/
noncomputable def ParticlesBackground.movedY (p : Particle) : ℝ := p.y + p.vy

/-- `Math.sqrt(dx * dx + dy * dy)` (part_000 lines 1328-1330): the
Euclidean distance from the moved particle to the mouse. -/
noncomputable def ParticlesBackground.mouseDist (mx my : ℝ) (p : Particle) : ℝ :=
  Real.sqrt ((mx - ParticlesBackground.movedX p) * (mx - ParticlesBackground.movedX p) +
    (my - ParticlesBackground.movedY p) * (my - ParticlesBackground.movedY p))

/-- The motion applied to one particle by one frame of
`ParticlesBackground.animate()` (part_000 lines 1318-1347), given the
mouse position `(mx, my)`, the interaction radius, and the canvas size
`w × h`: the particle first moves by its velocity, the velocity
components flip when the new position leaves the canvas, and when the
distance from the moved particle to the mouse is below the radius the
position is pushed opposite the direction to the mouse by
`cos/sin(angle) * force * 2` with `force = (radius - distance) / radius`. -/
noncomputable def ParticlesBackground.step (mx my radius w h : ℝ)
    (p : Particle) : Particle :=
  let x1 := ParticlesBackground.movedX p
  let y1 := ParticlesBackground.movedY p
  let vx1 := if x1 < 0 ∨ w < x1 then -p.vx else p.vx
  let vy1 := if y1 < 0 ∨ h < y1 then -p.vy else p.vy
  let distance := ParticlesBackground.mouseDist mx my p
  if distance < radius then
    let angle := jsAtan2 (my - y1) (mx - x1)
    let force := (radius - distance) / radius
    { x := x1 - Real.cos angle * force * 2
      y := y1 - Real.sin angle * force * 2
      vx := vx1, vy := vy1 }
  else
    { x := x1, y := y1, vx := vx1, vy := vy1 }

/-! ## The whole program's handlers, for the storage frame property -/

/-- JavaScript truthiness of `localStorage.getItem(k)`: `null` (absent)
and the empty string are falsy. -/
def jsFalsyItem : Option String → Bool
  | none => true
  | some v => v == ""

/-- One run of any modelled event handler of the program, with the
inputs it reads from the environment (scroll offsets, random draws,
element rects, analytics payloads). -/
inductive AppOp where
  | themeSet (t : String)
  | themeToggle
  | mediaChange (m : Bool)
  | navbarUpdate (cur : ℚ)
  | progressUpdate (winScroll height : ℚ)
  | analyticsLog (ev : AnalyticsEvent)
  | contactSubmit (r : ℚ) (valid : Bool)
  | newsletterSubmit (r : ℚ)
  | scrollReveal (top bottom viewH : ℚ)
  | observerFire (isIntersecting : Bool)
  | particleFrame (mx my w h : ℝ)

/-- The state all modelled handlers act on: theme plus storage, navbar,
progress-bar width, analytics events, the two forms, a reveal element
and a particle. -/
structure AppState where
  themeSt : ThemeState
  nav : NavState
  progressWidth : JSNum
  events : List AnalyticsEvent
  contact : ContactState
  news : NewsState
  reveal : RevealElement
  particle : Particle

/-- Dispatch of one handler run on the program state.  `mediaChange` is
the `prefers-color-scheme` listener (script.js 113-118), which calls
`setTheme` only when `localStorage.getItem('theme')` is falsy. -/
noncomputable def AppOp.apply : AppOp → AppState → AppState
  | AppOp.themeSet t, st =>
      { st with themeSt := ThemeManager.setTheme st.themeSt t }
  | AppOp.themeToggle, st =>
      { st with themeSt := ThemeManager.toggleTheme st.themeSt }
  | AppOp.mediaChange m, st =>
      if jsFalsyItem (getItem st.themeSt.storage "theme") then
        { st with themeSt := ThemeManager.setTheme st.themeSt (if m then "dark" else "light") }
      else st
  | AppOp.navbarUpdate cur, st =>
      { st with nav := NavigationManager.updateNavbar cur st.nav }
  | AppOp.progressUpdate ws ht, st =>
      { st with progressWidth := NavigationManager.progressScrolled ws ht }
  | AppOp.analyticsLog ev, st =>
      { st with events := AnalyticsManager.logEvent ev st.events }
  | AppOp.contactSubmit r v, st =>
      { st with contact := ContactFormManager.handleSubmit r v st.contact }
  | AppOp.newsletterSubmit r, st =>
      { st with news := NewsletterManager.handleSubmit r st.news }
  | AppOp.scrollReveal t b vh, st =>
      { st with reveal := AnimationManager.animateOnScrollStep vh { st.reveal with top := t, bottom := b } }
  | AppOp.observerFire ii, st =>
      { st with reveal := AnimationManager.observerStep ii st.reveal }
  | AppOp.particleFrame mx my w h, st =>
      { st with particle := ParticlesBackground.step mx my ParticlesBackground.mouseRadius w h st.particle }

/-- The handlers that reach `ThemeManager.setTheme`, the one function
that writes to `localStorage`. -/
def AppOp.isThemeWrite : AppOp → Bool
  | AppOp.themeSet _ => true
  | AppOp.themeToggle => true
  | AppOp.mediaChange _ => true
  | _ => false

/-! ## Helper lemmas -/

theorem getItem_setItem_self (s : Storage) (k v : String) :
    getItem (setItem s k v) k = some v := by
  simp [getItem, setItem]

theorem find?_filter_key_ne (s : Storage) (k k' : String) (h : k' ≠ k) :
    (s.filter (fun p => p.1 != k)).find? (fun p => p.1 == k') =
      s.find? (fun p => p.1 == k') := by
  have hkk : (k == k') = false := beq_eq_false_iff_ne.mpr (fun hc => h hc.symm)
  induction s with
  | nil => rfl
  | cons p s ih =>
    by_cases hp : p.1 = k
    · simp [List.filter_cons, List.find?, hp, hkk, ih]
    · by_cases hq : p.1 = k'
      · simp [List.filter_cons, List.find?, hp, hq, h]
      · have hq' : (p.1 == k') = false := beq_eq_false_iff_ne.mpr hq
        simp [List.filter_cons, List.find?, hp, hq', ih]

theorem getItem_setItem_ne (s : Storage) (k k' v : String) (h : k' ≠ k) :
    getItem (setItem s k v) k' = getItem s k' := by
  have hkk : (k == k') = false := beq_eq_false_iff_ne.mpr (fun hc => h hc.symm)
  simp only [getItem, setItem, List.find?, hkk]
  rw [find?_filter_key_ne s k k' h]

/-! ## C4: the theme is binary, synced to storage and the body class,
and toggling is an involution -/

/-- C4: starting from a theme that is `light` or `dark`, `setTheme`
with a `light`/`dark` argument and `toggleTheme` keep the theme one of
those two values; after either call the stored `theme` key equals the
in-memory theme and the `dark-mode` body class is present exactly when
the theme is `dark`; and applying `toggleTheme` twice restores the
original theme. -/
theorem ThemeManager.theme_binary_synced_involutive
    (st : ThemeState) (t : String)
    (ht : t = "light" ∨ t = "dark")
    (hst : st.theme = "light" ∨ st.theme = "dark") :
    ((ThemeManager.setTheme st t).theme = "light" ∨
      (ThemeManager.setTheme st t).theme = "dark") ∧
    ((ThemeManager.toggleTheme st).theme = "light" ∨
      (ThemeManager.toggleTheme st).theme = "dark") ∧
    getItem (ThemeManager.setTheme st t).storage "theme" =
      some (ThemeManager.setTheme st t).theme ∧
    getItem (ThemeManager.toggleTheme st).storage "theme" =
      some (ThemeManager.toggleTheme st).theme ∧
    ((ThemeManager.setTheme st t).darkModeClass = true ↔
      (ThemeManager.setTheme st t).theme = "dark") ∧
    ((ThemeManager.toggleTheme st).darkModeClass = true ↔
      (ThemeManager.toggleTheme st).theme = "dark") ∧
    (ThemeManager.toggleTheme (ThemeManager.toggleTheme st)).theme = st.theme := by
  rcases hst with hst | hst <;> rcases ht with ht | ht <;>
    simp [ThemeManager.toggleTheme, ThemeManager.setTheme, getItem_setItem_self,
      hst, ht]

/-- Witness for C4 at a concrete state and argument. -/
theorem ThemeManager.theme_binary_synced_involutive_instance :
    (ThemeManager.toggleTheme
      (ThemeManager.toggleTheme ⟨"light", false, []⟩)).theme = "light" :=
  (ThemeManager.theme_binary_synced_involutive ⟨"light", false, []⟩ "dark"
    (Or.inr rfl) (Or.inl rfl)).2.2.2.2.2.2

/-! ## C7: navbar `scrolled` and `hidden` classes -/

/-- C7: after `updateNavbar` at scroll offset `cur`, the navbar has the
`hidden` class exactly when `cur` exceeds 200 and exceeds the
previously recorded scroll position; in particular it is not hidden
when `cur ≤ 100`; and it has the `scrolled` class exactly when `cur`
exceeds 100. -/
theorem NavigationManager.updateNavbar_classes (cur : ℚ) (st : NavState) :
    ((NavigationManager.updateNavbar cur st).hidden = true ↔
      (200 < cur ∧ st.prevScroll < cur)) ∧
    (cur ≤ 100 → (NavigationManager.updateNavbar cur st).hidden = false) ∧
    ((NavigationManager.updateNavbar cur st).scrolled = true ↔ 100 < cur) := by
  by_cases h : 100 < cur
  · refine ⟨?_, ?_, ?_⟩
    · simp only [NavigationManager.updateNavbar, if_pos h, decide_eq_true_eq]
      exact and_comm
    · intro hle
      exact absurd h (not_lt.mpr hle)
    · simp [NavigationManager.updateNavbar, if_pos h, h]
  · refine ⟨?_, ?_, ?_⟩
    · simp only [NavigationManager.updateNavbar, if_neg h]
      constructor
      · intro hfalse
        exact absurd hfalse (by simp)
      · rintro ⟨h200, -⟩
        exact absurd (lt_trans (by norm_num) h200) h
    · intro _
      simp [NavigationManager.updateNavbar, if_neg h]
    · simp [NavigationManager.updateNavbar, if_neg h, h]

/-- Witness for C7: at scroll offset 50 the navbar is not hidden. -/
theorem NavigationManager.updateNavbar_classes_instance :
    (NavigationManager.updateNavbar 50 ⟨false, false, 0⟩).hidden = false :=
  (NavigationManager.updateNavbar_classes 50 ⟨false, false, 0⟩).2.1 (by norm_num)

/-! ## C3: only the theme setter writes to localStorage, and only key
`theme` -/

/-- C3: whatever handler runs, any storage key whose value changes is
`theme`, and a handler that does not go through `ThemeManager.setTheme`
leaves the storage entirely unchanged. -/
theorem AppOp.localStorage_frame (op : AppOp) (st : AppState) :
    (∀ k, k ≠ "theme" →
      getItem (op.apply st).themeSt.storage k = getItem st.themeSt.storage k) ∧
    (op.isThemeWrite = false →
      (op.apply st).themeSt.storage = st.themeSt.storage) := by
  cases op with
  | themeSet t =>
      refine ⟨fun k hk => ?_, fun hfalse => by simp [AppOp.isThemeWrite] at hfalse⟩
      simp [AppOp.apply, ThemeManager.setTheme, getItem_setItem_ne _ _ _ _ hk]
  | themeToggle =>
      refine ⟨fun k hk => ?_, fun hfalse => by simp [AppOp.isThemeWrite] at hfalse⟩
      simp [AppOp.apply, ThemeManager.toggleTheme, ThemeManager.setTheme,
        getItem_setItem_ne _ _ _ _ hk]
  | mediaChange m =>
      refine ⟨fun k hk => ?_, fun hfalse => by simp [AppOp.isThemeWrite] at hfalse⟩
      simp only [AppOp.apply]
      split
      · simp [ThemeManager.setTheme, getItem_setItem_ne _ _ _ _ hk]
      · rfl
  | navbarUpdate cur => exact ⟨fun _ _ => rfl, fun _ => rfl⟩
  | progressUpdate ws ht => exact ⟨fun _ _ => rfl, fun _ => rfl⟩
  | analyticsLog ev => exact ⟨fun _ _ => rfl, fun _ => rfl⟩
  | contactSubmit r v => exact ⟨fun _ _ => rfl, fun _ => rfl⟩
  | newsletterSubmit r => exact ⟨fun _ _ => rfl, fun _ => rfl⟩
  | scrollReveal t b vh => exact ⟨fun _ _ => rfl, fun _ => rfl⟩
  | observerFire ii => exact ⟨fun _ _ => rfl, fun _ => rfl⟩
  | particleFrame mx my w h => exact ⟨fun _ _ => rfl, fun _ => rfl⟩

/-- A concrete program state used to instantiate frame theorems. -/
def appState0 : AppState :=
  { themeSt := ⟨"light", false, []⟩
    nav := ⟨false, false, 0⟩
    progressWidth := JSNum.fin 0
    events := []
    contact := ⟨false, [("name", "Ada")], none, false⟩
    news := ⟨"", false, none⟩
    reveal := ⟨0, 0, false, false⟩
    particle := ⟨0, 0, 0, 0⟩ }

/-- Witness for C3: a navbar update changes neither the `user` key nor
the storage as a whole. -/
theorem AppOp.localStorage_frame_instance :
    getItem ((AppOp.navbarUpdate 50).apply appState0).themeSt.storage "user" =
      getItem appState0.themeSt.storage "user" ∧
    ((AppOp.navbarUpdate 50).apply appState0).themeSt.storage =
      appState0.themeSt.storage :=
  ⟨(AppOp.localStorage_frame (AppOp.navbarUpdate 50) appState0).1 "user"
      (by decide),
    (AppOp.localStorage_frame (AppOp.navbarUpdate 50) appState0).2 rfl⟩

/-! ## C8: progress-bar percentage -/

/-- C8: with positive scrollable height and a scroll offset between 0
and that height, the percentage `(winScroll / height) * 100` is a
finite value in `[0, 100]`; with scrollable height 0 the computed
percentage is not a finite number. -/
theorem NavigationManager.progressScrolled_range (winScroll height : ℚ) :
    (0 < height → 0 ≤ winScroll → winScroll ≤ height →
      NavigationManager.progressScrolled winScroll height =
        JSNum.fin (winScroll / height * 100) ∧
      0 ≤ winScroll / height * 100 ∧ winScroll / height * 100 ≤ 100) ∧
    (height = 0 → 0 ≤ winScroll →
      (NavigationManager.progressScrolled winScroll height).isFinite = false) := by
  constructor
  · intro hh hw hwh
    have hne : height ≠ 0 := ne_of_gt hh
    refine ⟨by simp [NavigationManager.progressScrolled, jsDiv, jsMul, hne], ?_, ?_⟩
    · exact mul_nonneg (div_nonneg hw (le_of_lt hh)) (by norm_num)
    · have h1 : winScroll / height ≤ 1 := (div_le_one hh).mpr hwh
      nlinarith
  · intro hh hw
    subst hh
    by_cases hz : winScroll = 0
    · subst hz
      simp [NavigationManager.progressScrolled, jsDiv, jsMul, JSNum.isFinite]
    · simp [NavigationManager.progressScrolled, jsDiv, jsMul, JSNum.isFinite, hz]

/-- Witness for C8: both branches at concrete inputs — scroll 50 of
height 200 gives the finite percentage 25, and height 0 gives a
non-finite value. -/
theorem NavigationManager.progressScrolled_range_instance :
    (NavigationManager.progressScrolled 50 200 =
        JSNum.fin ((50 : ℚ) / 200 * 100) ∧
      0 ≤ (50 : ℚ) / 200 * 100 ∧ (50 : ℚ) / 200 * 100 ≤ 100) ∧
    (NavigationManager.progressScrolled 7 0).isFinite = false :=
  ⟨(NavigationManager.progressScrolled_range 50 200).1 (by norm_num) (by norm_num)
      (by norm_num),
    (NavigationManager.progressScrolled_range 7 0).2 rfl (by norm_num)⟩

/-! ## C9: the analytics event list keeps the most recent 100 events -/

theorem AnalyticsManager.logEvent_eq_drop (ev : AnalyticsEvent)
    (acc : List AnalyticsEvent) :
    AnalyticsManager.logEvent ev acc =
      (acc ++ [ev]).drop ((acc ++ [ev]).length - 100) := by
  simp only [AnalyticsManager.logEvent]
  split
  · rfl
  · next h => rw [Nat.sub_eq_zero_of_le (not_lt.mp h), List.drop_zero]

set_option maxRecDepth 4096 in
theorem AnalyticsManager.foldl_logEvent_eq_drop (l acc : List AnalyticsEvent)
    (hacc : acc.length ≤ 100) :
    l.foldl (fun a e => AnalyticsManager.logEvent e a) acc =
      (acc ++ l).drop ((acc ++ l).length - 100) := by
  induction l generalizing acc with
  | nil =>
    simp only [List.foldl_nil, List.append_nil]
    rw [Nat.sub_eq_zero_of_le hacc, List.drop_zero]
  | cons e l ih =>
    rw [List.foldl_cons, AnalyticsManager.logEvent_eq_drop]
    have hlen : ((acc ++ [e]).drop ((acc ++ [e]).length - 100)).length ≤ 100 := by
      rw [List.length_drop]
      omega
    rw [ih _ hlen]
    have hA : (acc ++ [e]).length - 100 ≤ (acc ++ [e]).length := Nat.sub_le _ _
    rw [← List.drop_append_of_le_length hA, List.drop_drop]
    have e2 : (acc ++ [e]) ++ l = acc ++ e :: l := by simp
    rw [e2]
    congr 1
    simp only [List.length_drop, List.length_append, List.length_cons,
      List.length_nil]
    omega

/-- C9: after any sequence of `logEvent` calls starting from the empty
constructor state, the in-memory event list holds at most 100 events,
and it is exactly the suffix of most recently logged events (older
events are dropped first). -/
theorem AnalyticsManager.logEvents_capped_recent (l : List AnalyticsEvent) :
    (AnalyticsManager.logEvents l).length ≤ 100 ∧
    AnalyticsManager.logEvents l = l.drop (l.length - 100) := by
  have h := AnalyticsManager.foldl_logEvent_eq_drop l [] (by simp)
  simp only [List.nil_append] at h
  refine ⟨?_, h⟩
  rw [AnalyticsManager.logEvents, h, List.length_drop]
  omega

/-! ## C10: Utils.formatPhone -/

theorem replaceFirstTen_of_no_run (cs : List Char)
    (h : ∀ i < cs.length, tenDigitsAt (cs.drop i) = false) :
    replaceFirstTen cs = cs := by
  induction cs with
  | nil => rfl
  | cons c cs ih =>
    have h0 : tenDigitsAt (c :: cs) = false := by simpa using h 0 (by simp)
    rw [replaceFirstTen]
    simp only [h0, Bool.false_eq_true, if_false]
    have hrest : ∀ i < cs.length, tenDigitsAt (cs.drop i) = false := by
      intro i hi
      simpa using h (i + 1) (by simp; omega)
    rw [ih hrest]

/-- C10: on a string of exactly ten ASCII digits `formatPhone` returns
the five consecutive two-digit groups joined by single spaces, and on a
string with no run of ten consecutive digits it returns the input
unchanged. -/
theorem Utils.formatPhone_spec (s : String) :
    (s.data.length = 10 → s.data.all Char.isDigit = true →
      Utils.formatPhone s = String.mk
        (s.data.take 2 ++ ' ' :: ((s.data.drop 2).take 2) ++ ' ' ::
          ((s.data.drop 4).take 2) ++ ' ' :: ((s.data.drop 6).take 2) ++ ' ' ::
          ((s.data.drop 8).take 2))) ∧
    ((∀ i < s.data.length, tenDigitsAt (s.data.drop i) = false) →
      Utils.formatPhone s = s) := by
  constructor
  · intro hlen hdig
    have hten : tenDigitsAt s.data = true := by
      rw [tenDigitsAt]
      have htake : s.data.take 10 = s.data := List.take_of_length_le (by omega)
      simp [hlen, htake, hdig]
    have hne : s.data ≠ [] := by
      intro hnil
      rw [hnil] at hlen
      simp at hlen
    obtain ⟨c, cs, hcs⟩ := List.exists_cons_of_ne_nil hne
    rw [hcs] at hten hlen
    rw [Utils.formatPhone, hcs]
    rw [replaceFirstTen]
    simp only [hten, if_true]
    rw [groupTen]
    have h10 : (c :: cs).drop 10 = [] := List.drop_eq_nil_of_le (by omega)
    rw [h10, List.append_nil]
  · intro h
    show String.mk (replaceFirstTen s.data) = s
    rw [replaceFirstTen_of_no_run s.data h]

/-- Witness for C10: both branches at concrete strings. -/
theorem Utils.formatPhone_spec_instance :
    Utils.formatPhone "0612345678" = "06 12 34 56 78" ∧
    Utils.formatPhone "hello 123" = "hello 123" := by
  constructor
  · have h := (Utils.formatPhone_spec "0612345678").1 (by decide) (by decide)
    rw [h]
    decide
  · exact (Utils.formatPhone_spec "hello 123").2 (by decide)

/-! ## C1: contact-form submission random gate -/

/-- C1: for a validated submission that is not re-entrant, the
simulated submit resolves with success exactly when the random draw
exceeds 0.1, and otherwise rejects with `Network error`; on rejection
the error notification is shown and the field values are not reset. -/
theorem ContactFormManager.handleSubmit_random_gate (r : ℚ) (st : ContactState)
    (hsub : st.submitting = false) :
    (ContactFormManager.submitForm r = Except.ok () ↔ 1/10 < r) ∧
    (¬ 1/10 < r →
      ContactFormManager.submitForm r = Except.error "Network error" ∧
      (ContactFormManager.handleSubmit r true st).notification =
        some ("Une erreur est survenue. Veuillez réessayer.", "error") ∧
      (ContactFormManager.handleSubmit r true st).fields = st.fields) := by
  constructor
  · rw [ContactFormManager.submitForm]
    split
    · next h => exact iff_of_true rfl h
    · next h => exact iff_of_false (fun hc => Except.noConfusion hc) h
  · intro hr
    have hform : ContactFormManager.submitForm r = Except.error "Network error" := by
      rw [ContactFormManager.submitForm, if_neg hr]
    refine ⟨hform, ?_, ?_⟩ <;>
      simp [ContactFormManager.handleSubmit, hsub, hform]

/-- Witness for C1 at draw 0 and a concrete non-submitting state. -/
theorem ContactFormManager.handleSubmit_random_gate_instance :
    ContactFormManager.submitForm 0 = Except.error "Network error" ∧
    (ContactFormManager.handleSubmit 0 true
        ⟨false, [("email", "a@b.c")], none, false⟩).notification =
      some ("Une erreur est survenue. Veuillez réessayer.", "error") ∧
    (ContactFormManager.handleSubmit 0 true
        ⟨false, [("email", "a@b.c")], none, false⟩).fields =
      [("email", "a@b.c")] :=
  (ContactFormManager.handleSubmit_random_gate 0
    ⟨false, [("email", "a@b.c")], none, false⟩ rfl).2 (by norm_num)

/-! ## C2: which simulated submissions are random-gated -/

/-- C2 counterexample: the newsletter submission admits no failing
random draw — for every draw, submitting the valid address `a@b.c`
never shows the failure message, because the simulated send resolves
unconditionally. -/
theorem NewsletterManager.no_failing_draw :
    ¬ ∃ r : ℚ,
      (NewsletterManager.handleSubmit r ⟨"a@b.c", false, none⟩).message =
        some ("Une erreur est survenue", "error") := by
  rintro ⟨r, hr⟩
  rw [show (NewsletterManager.handleSubmit r ⟨"a@b.c", false, none⟩).message =
      some ("Merci pour votre inscription !", "success") from rfl] at hr
  simp at hr

/-- C2 amended: only the contact form's simulated submission is gated
by a random draw (it has both a failing and a succeeding draw); the
newsletter's simulated send succeeds for every draw. -/
theorem simulated_submissions_gating :
    (∃ r : ℚ, ContactFormManager.submitForm r = Except.error "Network error") ∧
    (∃ r : ℚ, ContactFormManager.submitForm r = Except.ok ()) ∧
    ∀ r : ℚ, NewsletterManager.simulateSend r = Except.ok () := by
  refine ⟨⟨0, ?_⟩, ⟨1, ?_⟩, fun r => rfl⟩
  · rw [ContactFormManager.submitForm, if_neg (by norm_num)]
  · rw [ContactFormManager.submitForm, if_pos (by norm_num)]

/-! ## C5: how the reveal class is applied -/

/-- C5 counterexample: for an element inside the viewport (per the
offset-0.2 test), the Intersection Observer callback does not apply the
reveal class `visible` even on an intersecting entry; the scroll
handler does. -/
theorem AnimationManager.reveal_not_observer_driven :
    Utils.isInViewport 0 10 800 (2/10) = true ∧
    (AnimationManager.observerStep true ⟨0, 10, false, false⟩).visibleClass =
      false ∧
    (AnimationManager.animateOnScrollStep 800 ⟨0, 10, false, false⟩).visibleClass =
      true := by
  have hvp : Utils.isInViewport 0 10 800 (2/10) = true := by
    norm_num [Utils.isInViewport, decide_eq_true_eq]
  refine ⟨hvp, rfl, ?_⟩
  rw [AnimationManager.animateOnScrollStep]
  simp [hvp]

theorem AnimationManager.runReveal_mono (steps : List (ℚ × ℚ × ℚ)) :
    ∀ el : RevealElement, el.visibleClass = true →
      (AnimationManager.runReveal steps el).visibleClass = true := by
  induction steps with
  | nil => exact fun el h => h
  | cons s steps ih =>
    intro el h
    show (AnimationManager.runReveal steps
      (AnimationManager.animateOnScrollStep s.2.2
        { el with top := s.1, bottom := s.2.1 })).visibleClass = true
    apply ih
    rw [AnimationManager.animateOnScrollStep]
    split
    · rfl
    · exact h

/-- C5 amended: the reveal class `visible` is applied by the throttled
scroll handler `animateOnScroll` when the element passes the viewport
test with offset 0.2 (not by the Intersection Observer, which drives
the separate `data-animate` animation), and once applied no later
scroll step removes it. -/
theorem AnimationManager.reveal_scroll_monotone (viewH top bottom : ℚ)
    (el : RevealElement) (steps : List (ℚ × ℚ × ℚ)) :
    (Utils.isInViewport top bottom viewH (2/10) = true →
      (AnimationManager.animateOnScrollStep viewH
        { el with top := top, bottom := bottom }).visibleClass = true) ∧
    (el.visibleClass = true →
      (AnimationManager.runReveal steps el).visibleClass = true) := by
  constructor
  · intro h
    rw [AnimationManager.animateOnScrollStep]
    simp [h]
  · exact AnimationManager.runReveal_mono steps el

/-- Witness for C5 (amended): a concrete in-viewport element gains the
class, and a revealed element stays revealed through a scroll step. -/
theorem AnimationManager.reveal_scroll_monotone_instance :
    (AnimationManager.animateOnScrollStep 800 ⟨0, 10, false, false⟩).visibleClass =
      true ∧
    (AnimationManager.runReveal [(0, 10, 800)] ⟨0, 10, true, false⟩).visibleClass =
      true :=
  ⟨(AnimationManager.reveal_scroll_monotone 800 0 10 ⟨5, 5, false, false⟩ []).1
      (by norm_num [Utils.isInViewport, decide_eq_true_eq]),
    (AnimationManager.reveal_scroll_monotone 800 0 10 ⟨0, 10, true, false⟩
      [(0, 10, 800)]).2 rfl⟩

/-! ## C6: particle displacement near the cursor -/

theorem ParticlesBackground.step_x_of_lt (mx my radius w h : ℝ) (p : Particle)
    (hlt : ParticlesBackground.mouseDist mx my p < radius) :
    (ParticlesBackground.step mx my radius w h p).x =
      ParticlesBackground.movedX p -
        Real.cos (jsAtan2 (my - ParticlesBackground.movedY p)
            (mx - ParticlesBackground.movedX p)) *
          ((radius - ParticlesBackground.mouseDist mx my p) / radius) * 2 := by
  simp only [ParticlesBackground.step]
  rw [if_pos hlt]

theorem ParticlesBackground.step_y_of_lt (mx my radius w h : ℝ) (p : Particle)
    (hlt : ParticlesBackground.mouseDist mx my p < radius) :
    (ParticlesBackground.step mx my radius w h p).y =
      ParticlesBackground.movedY p -
        Real.sin (jsAtan2 (my - ParticlesBackground.movedY p)
            (mx - ParticlesBackground.movedX p)) *
          ((radius - ParticlesBackground.mouseDist mx my p) / radius) * 2 := by
  simp only [ParticlesBackground.step]
  rw [if_pos hlt]

theorem ParticlesBackground.step_pos_of_ge (mx my radius w h : ℝ) (p : Particle)
    (hge : radius ≤ ParticlesBackground.mouseDist mx my p) :
    (ParticlesBackground.step mx my radius w h p).x = ParticlesBackground.movedX p ∧
    (ParticlesBackground.step mx my radius w h p).y = ParticlesBackground.movedY p := by
  simp only [ParticlesBackground.step]
  rw [if_neg (not_lt.mpr hge)]
  exact ⟨rfl, rfl⟩

theorem pushAway_dist_gt (dx dy c : ℝ) (hc : 0 < c) :
    Real.sqrt ((dx + Real.cos (jsAtan2 dy dx) * c) * (dx + Real.cos (jsAtan2 dy dx) * c) +
      (dy + Real.sin (jsAtan2 dy dx) * c) * (dy + Real.sin (jsAtan2 dy dx) * c)) >
    Real.sqrt (dx * dx + dy * dy) := by
  by_cases hz : dx = 0 ∧ dy = 0
  · obtain ⟨hdx, hdy⟩ := hz
    subst hdx hdy
    have harg : jsAtan2 0 0 = 0 := by
      rw [jsAtan2, show ({ re := 0, im := 0 } : ℂ) = 0 from Complex.ext rfl rfl,
        Complex.arg_zero]
    rw [harg, Real.cos_zero, Real.sin_zero]
    simp only [zero_add, one_mul, zero_mul, mul_zero, add_zero]
    rw [Real.sqrt_mul_self hc.le]
    simpa using hc
  · have hsne : dx * dx + dy * dy ≠ 0 := by
      intro h
      exact hz ⟨by nlinarith [sq_nonneg dx, sq_nonneg dy],
        by nlinarith [sq_nonneg dx, sq_nonneg dy]⟩
    have hs : 0 < dx * dx + dy * dy :=
      lt_of_le_of_ne (by nlinarith [sq_nonneg dx, sq_nonneg dy]) (Ne.symm hsne)
    have hd : 0 < Real.sqrt (dx * dx + dy * dy) := Real.sqrt_pos.mpr hs
    set d := Real.sqrt (dx * dx + dy * dy) with hdDef
    have hz0 : ({ re := dx, im := dy } : ℂ) ≠ 0 := by
      intro h
      exact hz ⟨congrArg Complex.re h, congrArg Complex.im h⟩
    have habs : Complex.abs { re := dx, im := dy } = d := by
      rw [Complex.abs_apply, Complex.normSq_mk]
    have hcos : Real.cos (jsAtan2 dy dx) = dx / d := by
      rw [jsAtan2, Complex.cos_arg hz0]
      simp [habs]
    have hsin : Real.sin (jsAtan2 dy dx) = dy / d := by
      rw [jsAtan2, Complex.sin_arg]
      simp [habs]
    have hk1 : 1 < 1 + c / d := by
      have := div_pos hc hd
      linarith
    have hdx' : dx + Real.cos (jsAtan2 dy dx) * c = dx * (1 + c / d) := by
      rw [hcos]
      field_simp
      ring
    have hdy' : dy + Real.sin (jsAtan2 dy dx) * c = dy * (1 + c / d) := by
      rw [hsin]
      field_simp
      ring
    rw [hdx', hdy']
    have key : dx * (1 + c / d) * (dx * (1 + c / d)) + dy * (1 + c / d) * (dy * (1 + c / d))
        = (1 + c / d) ^ 2 * (dx * dx + dy * dy) := by ring
    rw [key, Real.sqrt_mul (sq_nonneg _), Real.sqrt_sq_eq_abs, ← hdDef,
      abs_of_pos (by linarith : (0:ℝ) < 1 + c / d)]
    nlinarith

theorem pushAway_displaced (dx dy c : ℝ) (hc : 0 < c) :
    Real.cos (jsAtan2 dy dx) * c ≠ 0 ∨ Real.sin (jsAtan2 dy dx) * c ≠ 0 := by
  by_contra hcon
  push_neg at hcon
  obtain ⟨h1, h2⟩ := hcon
  have hcz : Real.cos (jsAtan2 dy dx) = 0 :=
    (mul_eq_zero.mp h1).resolve_right (ne_of_gt hc)
  have hsz : Real.sin (jsAtan2 dy dx) = 0 :=
    (mul_eq_zero.mp h2).resolve_right (ne_of_gt hc)
  have := Real.sin_sq_add_cos_sq (jsAtan2 dy dx)
  rw [hcz, hsz] at this
  norm_num at this

/-- C6: in one frame of the particle loop, with the mouse radius of
100 pixels, a particle strictly inside the radius (measured from its
velocity-moved position) is displaced with per-axis magnitude at most
2 pixels and ends strictly farther from the cursor than it was; a
particle at distance 100 or more keeps exactly its velocity-moved
position; and the position is displaced precisely when the distance is
below 100. -/
theorem ParticlesBackground.step_cursor_interaction (mx my w h : ℝ) (p : Particle) :
    ParticlesBackground.mouseRadius = 100 ∧
    (ParticlesBackground.mouseDist mx my p < 100 →
      |(ParticlesBackground.step mx my ParticlesBackground.mouseRadius w h p).x -
          ParticlesBackground.movedX p| ≤ 2 ∧
      |(ParticlesBackground.step mx my ParticlesBackground.mouseRadius w h p).y -
          ParticlesBackground.movedY p| ≤ 2 ∧
      Real.sqrt
          ((mx - (ParticlesBackground.step mx my ParticlesBackground.mouseRadius w h p).x) *
            (mx - (ParticlesBackground.step mx my ParticlesBackground.mouseRadius w h p).x) +
          (my - (ParticlesBackground.step mx my ParticlesBackground.mouseRadius w h p).y) *
            (my - (ParticlesBackground.step mx my ParticlesBackground.mouseRadius w h p).y)) >
        ParticlesBackground.mouseDist mx my p) ∧
    (100 ≤ ParticlesBackground.mouseDist mx my p →
      (ParticlesBackground.step mx my ParticlesBackground.mouseRadius w h p).x =
        ParticlesBackground.movedX p ∧
      (ParticlesBackground.step mx my ParticlesBackground.mouseRadius w h p).y =
        ParticlesBackground.movedY p) ∧
    (¬ ((ParticlesBackground.step mx my ParticlesBackground.mouseRadius w h p).x =
          ParticlesBackground.movedX p ∧
        (ParticlesBackground.step mx my ParticlesBackground.mouseRadius w h p).y =
          ParticlesBackground.movedY p) ↔
      ParticlesBackground.mouseDist mx my p < 100) := by
  have hrad : ParticlesBackground.mouseRadius = (100 : ℝ) := rfl
  have hd0 : 0 ≤ ParticlesBackground.mouseDist mx my p := Real.sqrt_nonneg _
  constructor
  · exact hrad
  have hforce : ∀ hlt : ParticlesBackground.mouseDist mx my p < 100,
      0 < (ParticlesBackground.mouseRadius - ParticlesBackground.mouseDist mx my p) /
        ParticlesBackground.mouseRadius * 2 := by
    intro hlt
    rw [hrad]
    have : 0 < (100 - ParticlesBackground.mouseDist mx my p) / 100 := by
      apply div_pos <;> linarith
    linarith
  refine ⟨?_, ?_, ?_⟩
  · intro hlt
    have hlt' : ParticlesBackground.mouseDist mx my p < ParticlesBackground.mouseRadius := by
      rw [hrad]; exact hlt
    have hx := ParticlesBackground.step_x_of_lt mx my ParticlesBackground.mouseRadius w h p hlt'
    have hy := ParticlesBackground.step_y_of_lt mx my ParticlesBackground.mouseRadius w h p hlt'
    have hf0 : 0 ≤ (ParticlesBackground.mouseRadius - ParticlesBackground.mouseDist mx my p) /
        ParticlesBackground.mouseRadius := by
      rw [hrad]
      apply div_nonneg <;> linarith
    have hf1 : (ParticlesBackground.mouseRadius - ParticlesBackground.mouseDist mx my p) /
        ParticlesBackground.mouseRadius ≤ 1 := by
      rw [hrad, div_le_one (by norm_num : (0:ℝ) < 100)]
      linarith
    refine ⟨?_, ?_, ?_⟩
    · rw [hx]
      have e1 : ParticlesBackground.movedX p -
          Real.cos (jsAtan2 (my - ParticlesBackground.movedY p)
              (mx - ParticlesBackground.movedX p)) *
            ((ParticlesBackground.mouseRadius - ParticlesBackground.mouseDist mx my p) /
              ParticlesBackground.mouseRadius) * 2 -
          ParticlesBackground.movedX p =
          -(Real.cos (jsAtan2 (my - ParticlesBackground.movedY p)
              (mx - ParticlesBackground.movedX p)) *
            ((ParticlesBackground.mouseRadius - ParticlesBackground.mouseDist mx my p) /
              ParticlesBackground.mouseRadius) * 2) := by ring
      rw [e1, abs_neg, abs_mul, abs_mul, abs_two]
      have h1 := Real.abs_cos_le_one (jsAtan2 (my - ParticlesBackground.movedY p)
        (mx - ParticlesBackground.movedX p))
      have h2 : |(ParticlesBackground.mouseRadius - ParticlesBackground.mouseDist mx my p) /
          ParticlesBackground.mouseRadius| ≤ 1 := by
        rw [abs_of_nonneg hf0]; exact hf1
      nlinarith [abs_nonneg (Real.cos (jsAtan2 (my - ParticlesBackground.movedY p)
          (mx - ParticlesBackground.movedX p))),
        abs_nonneg ((ParticlesBackground.mouseRadius - ParticlesBackground.mouseDist mx my p) /
          ParticlesBackground.mouseRadius)]
    · rw [hy]
      have e1 : ParticlesBackground.movedY p -
          Real.sin (jsAtan2 (my - ParticlesBackground.movedY p)
              (mx - ParticlesBackground.movedX p)) *
            ((ParticlesBackground.mouseRadius - ParticlesBackground.mouseDist mx my p) /
              ParticlesBackground.mouseRadius) * 2 -
          ParticlesBackground.movedY p =
          -(Real.sin (jsAtan2 (my - ParticlesBackground.movedY p)
              (mx - ParticlesBackground.movedX p)) *
            ((ParticlesBackground.mouseRadius - ParticlesBackground.mouseDist mx my p) /
              ParticlesBackground.mouseRadius) * 2) := by ring
      rw [e1, abs_neg, abs_mul, abs_mul, abs_two]
      have h1 := Real.abs_sin_le_one (jsAtan2 (my - ParticlesBackground.movedY p)
        (mx - ParticlesBackground.movedX p))
      have h2 : |(ParticlesBackground.mouseRadius - ParticlesBackground.mouseDist mx my p) /
          ParticlesBackground.mouseRadius| ≤ 1 := by
        rw [abs_of_nonneg hf0]; exact hf1
      nlinarith [abs_nonneg (Real.sin (jsAtan2 (my - ParticlesBackground.movedY p)
          (mx - ParticlesBackground.movedX p))),
        abs_nonneg ((ParticlesBackground.mouseRadius - ParticlesBackground.mouseDist mx my p) /
          ParticlesBackground.mouseRadius)]
    · rw [hx, hy]
      have hc := hforce hlt
      have egx : mx - (ParticlesBackground.movedX p -
          Real.cos (jsAtan2 (my - ParticlesBackground.movedY p)
              (mx - ParticlesBackground.movedX p)) *
            ((ParticlesBackground.mouseRadius - ParticlesBackground.mouseDist mx my p) /
              ParticlesBackground.mouseRadius) * 2) =
          (mx - ParticlesBackground.movedX p) +
            Real.cos (jsAtan2 (my - ParticlesBackground.movedY p)
                (mx - ParticlesBackground.movedX p)) *
              ((ParticlesBackground.mouseRadius - ParticlesBackground.mouseDist mx my p) /
                ParticlesBackground.mouseRadius * 2) := by ring
      have egy : my - (ParticlesBackground.movedY p -
          Real.sin (jsAtan2 (my - ParticlesBackground.movedY p)
              (mx - ParticlesBackground.movedX p)) *
            ((ParticlesBackground.mouseRadius - ParticlesBackground.mouseDist mx my p) /
              ParticlesBackground.mouseRadius) * 2) =
          (my - ParticlesBackground.movedY p) +
            Real.sin (jsAtan2 (my - ParticlesBackground.movedY p)
                (mx - ParticlesBackground.movedX p)) *
              ((ParticlesBackground.mouseRadius - ParticlesBackground.mouseDist mx my p) /
                ParticlesBackground.mouseRadius * 2) := by ring
      rw [egx, egy]
      exact pushAway_dist_gt (mx - ParticlesBackground.movedX p)
        (my - ParticlesBackground.movedY p)
        ((ParticlesBackground.mouseRadius - ParticlesBackground.mouseDist mx my p) /
          ParticlesBackground.mouseRadius * 2) hc
  · intro hge
    exact ParticlesBackground.step_pos_of_ge mx my ParticlesBackground.mouseRadius w h p
      (by rw [hrad]; exact hge)
  · constructor
    · intro hne
      by_contra hge
      push_neg at hge
      exact hne (ParticlesBackground.step_pos_of_ge mx my ParticlesBackground.mouseRadius
        w h p (by rw [hrad]; exact hge))
    · intro hlt hboth
      obtain ⟨hxeq, hyeq⟩ := hboth
      have hlt' : ParticlesBackground.mouseDist mx my p < ParticlesBackground.mouseRadius := by
        rw [hrad]; exact hlt
      have hc := hforce hlt
      have hx := ParticlesBackground.step_x_of_lt mx my ParticlesBackground.mouseRadius w h p hlt'
      have hy := ParticlesBackground.step_y_of_lt mx my ParticlesBackground.mouseRadius w h p hlt'
      rw [hx] at hxeq
      rw [hy] at hyeq
      have hcz : Real.cos (jsAtan2 (my - ParticlesBackground.movedY p)
          (mx - ParticlesBackground.movedX p)) *
          ((ParticlesBackground.mouseRadius - ParticlesBackground.mouseDist mx my p) /
            ParticlesBackground.mouseRadius * 2) = 0 := by linarith [hxeq]
      have hsz : Real.sin (jsAtan2 (my - ParticlesBackground.movedY p)
          (mx - ParticlesBackground.movedX p)) *
          ((ParticlesBackground.mouseRadius - ParticlesBackground.mouseDist mx my p) /
            ParticlesBackground.mouseRadius * 2) = 0 := by linarith [hyeq]
      rcases pushAway_displaced (mx - ParticlesBackground.movedX p)
          (my - ParticlesBackground.movedY p)
          ((ParticlesBackground.mouseRadius - ParticlesBackground.mouseDist mx my p) /
            ParticlesBackground.mouseRadius * 2) hc with hno | hno
      · exact hno hcz
      · exact hno hsz

theorem ParticlesBackground.dist_far_example : ParticlesBackground.mouseDist 500 0 ⟨0, 0, 0, 0⟩ = 500 := by
  rw [ParticlesBackground.mouseDist]
  rw [show ParticlesBackground.movedX ⟨0, 0, 0, 0⟩ = 0 by
    rw [ParticlesBackground.movedX]; norm_num]
  rw [show ParticlesBackground.movedY ⟨0, 0, 0, 0⟩ = 0 by
    rw [ParticlesBackground.movedY]; norm_num]
  rw [show ((500:ℝ) - 0) * (500 - 0) + (0 - 0) * (0 - 0) = 500 * 500 by norm_num]
  exact Real.sqrt_mul_self (by norm_num)

theorem ParticlesBackground.dist_zero_example : ParticlesBackground.mouseDist 0 0 ⟨0, 0, 0, 0⟩ = 0 := by
  rw [ParticlesBackground.mouseDist]
  rw [show ParticlesBackground.movedX ⟨0, 0, 0, 0⟩ = 0 by
    rw [ParticlesBackground.movedX]; norm_num]
  rw [show ParticlesBackground.movedY ⟨0, 0, 0, 0⟩ = 0 by
    rw [ParticlesBackground.movedY]; norm_num]
  rw [show ((0:ℝ) - 0) * (0 - 0) + (0 - 0) * (0 - 0) = 0 by norm_num]
  exact Real.sqrt_zero

/-- Witness for C6: a particle at the origin with the mouse 500 pixels
away is moved only by its velocity, and with the mouse on top of it the
displacement is at most 2 pixels per axis. -/
theorem ParticlesBackground.step_cursor_interaction_instance :
    ((ParticlesBackground.step 500 0 ParticlesBackground.mouseRadius 800 600
        ⟨0, 0, 0, 0⟩).x = ParticlesBackground.movedX ⟨0, 0, 0, 0⟩ ∧
      (ParticlesBackground.step 500 0 ParticlesBackground.mouseRadius 800 600
        ⟨0, 0, 0, 0⟩).y = ParticlesBackground.movedY ⟨0, 0, 0, 0⟩) ∧
    |(ParticlesBackground.step 0 0 ParticlesBackground.mouseRadius 800 600
        ⟨0, 0, 0, 0⟩).x - ParticlesBackground.movedX ⟨0, 0, 0, 0⟩| ≤ 2 :=
  ⟨(ParticlesBackground.step_cursor_interaction 500 0 800 600 ⟨0, 0, 0, 0⟩).2.2.1
      (by rw [ParticlesBackground.dist_far_example]; norm_num),
    ((ParticlesBackground.step_cursor_interaction 0 0 800 600 ⟨0, 0, 0, 0⟩).2.1
      (by rw [ParticlesBackground.dist_zero_example]; norm_num)).1⟩
